import Mathlib

/-!
Verification of the WMS-to-Shuttle Gateway (shuttle_broker3) against its
natural-language specification.

The Python sources are shallowly embedded: pure fragments become Lean
functions, the stateful dispatch/queue code becomes explicit state passing,
Python exceptions become an `Except PyErr` result, and the `asyncio`
priority queue is embedded as the exact CPython `heapq` algorithm
(`heappush` / `heappop` with `_siftdown` / `_siftup`) over
`(priority, payload)` pairs whose payload comparison is a `TypeError`,
exactly as comparing two Python dicts is.
-/

/-- Commands of `models/shuttle.py` (`ShuttleCommand`, a str Enum). -/
inductive ShuttleCommand where
  | PALLET_IN
  | PALLET_OUT
  | FIFO_NNN
  | FILO_NNN
  | STACK_IN
  | STACK_OUT
  | HOME
  | COUNT
  | STATUS
  | BATTERY
  | WDH
  | WLH
  | MRCD
deriving DecidableEq, Repr, Inhabited

/-- String value of each `ShuttleCommand` member (the str-Enum payload). -/
def ShuttleCommand.value : ShuttleCommand → String
  | .PALLET_IN => "PALLET_IN"
  | .PALLET_OUT => "PALLET_OUT"
  | .FIFO_NNN => "FIFO"
  | .FILO_NNN => "FILO"
  | .STACK_IN => "STACK_IN"
  | .STACK_OUT => "STACK_OUT"
  | .HOME => "HOME"
  | .COUNT => "COUNT"
  | .STATUS => "STATUS"
  | .BATTERY => "BATTERY"
  | .WDH => "WDH"
  | .WLH => "WLH"
  | .MRCD => "MRCD"

/-- Operational statuses of `models/shuttle.py` (`ShuttleOperationalStatus`). -/
inductive ShuttleOperationalStatus where
  | FREE
  | BUSY
  | ERROR
  | NOT_READY
  | AWAITING_MRCD
  | UNKNOWN
  | MOVING
  | LOADING
  | UNLOADING
  | CHARGING
  | LOW_BATTERY
deriving DecidableEq, Repr, Inhabited

open ShuttleOperationalStatus in
/-- The transition dict of `ShuttleStateMachine.__init__`
(`src/services/state_machine.py` lines 12-62).  The Python dict mixes
`ShuttleCommand` members and raw strings as keys; a str Enum hashes and
compares as its string value, so the dict is keyed by strings and is
transcribed as such.  Statuses that are not keys of the Python dict map
to `none` (the `current_state not in self.transitions` branch of
`try_transition`). -/
def transitions_dict : ShuttleOperationalStatus →
    Option (List (String × ShuttleOperationalStatus))
  | FREE => some
      [(ShuttleCommand.PALLET_IN.value, LOADING),
       (ShuttleCommand.PALLET_OUT.value, UNLOADING),
       (ShuttleCommand.FIFO_NNN.value, MOVING),
       (ShuttleCommand.FILO_NNN.value, MOVING),
       (ShuttleCommand.STACK_IN.value, LOADING),
       (ShuttleCommand.STACK_OUT.value, UNLOADING),
       (ShuttleCommand.HOME.value, MOVING),
       ("BATTERY_LOW", LOW_BATTERY),
       ("ERROR", ERROR)]
  | BUSY => some
      [("DONE", FREE), ("ERROR", ERROR), (ShuttleCommand.HOME.value, MOVING)]
  | LOADING => some
      [("DONE", FREE), ("ERROR", ERROR), (ShuttleCommand.HOME.value, MOVING)]
  | UNLOADING => some
      [("DONE", FREE), ("ERROR", ERROR), (ShuttleCommand.HOME.value, MOVING)]
  | MOVING => some
      [("DONE", FREE), ("ERROR", ERROR)]
  | ERROR => some
      [("RESET", FREE)]
  | LOW_BATTERY => some
      [("CHARGING", CHARGING), ("ERROR", ERROR)]
  | CHARGING => some
      [("CHARGED", FREE), ("ERROR", ERROR)]
  | UNKNOWN => none
  | NOT_READY => none
  | AWAITING_MRCD => none

/-- `ShuttleStateMachine.try_transition`
(`src/services/state_machine.py` lines 71-104): returns the table entry
for `(current_state, trigger)`, or `none` when the current state is not a
key of the dict or the trigger is not listed for it.  The registered
side-effect handlers do not influence the returned state, so the returned
value is this pure function of `(current_state, trigger)`. -/
def try_transition (current : ShuttleOperationalStatus) (trigger : String) :
    Option ShuttleOperationalStatus :=
  match transitions_dict current with
  | none => none
  | some table => table.lookup trigger

/-- Trigger alphabet of spec section 4.2: the seven command kinds plus the
six synthetic events. -/
inductive Trigger where
  | PALLET_IN
  | PALLET_OUT
  | FIFO
  | FILO
  | STACK_IN
  | STACK_OUT
  | HOME
  | DONE
  | ERROR
  | BATTERY_LOW
  | CHARGING
  | CHARGED
  | RESET
deriving DecidableEq, Repr

/-- Wire/string form of each trigger as it reaches `try_transition`. -/
def Trigger.key : Trigger → String
  | .PALLET_IN => "PALLET_IN"
  | .PALLET_OUT => "PALLET_OUT"
  | .FIFO => "FIFO"
  | .FILO => "FILO"
  | .STACK_IN => "STACK_IN"
  | .STACK_OUT => "STACK_OUT"
  | .HOME => "HOME"
  | .DONE => "DONE"
  | .ERROR => "ERROR"
  | .BATTERY_LOW => "BATTERY_LOW"
  | .CHARGING => "CHARGING"
  | .CHARGED => "CHARGED"
  | .RESET => "RESET"

open ShuttleOperationalStatus in
/-- Modelled from the spec: the legal-transition table of section 4.2,
row by row, with every unlisted `(from, trigger)` pair rejected (`none`).
This definition transcribes the spec's table, to be compared with
`try_transition`, which transcribes the source. -/
def spec_transition : ShuttleOperationalStatus → Trigger →
    Option ShuttleOperationalStatus
  | FREE, .PALLET_IN => some LOADING
  | FREE, .STACK_IN => some LOADING
  | FREE, .PALLET_OUT => some UNLOADING
  | FREE, .STACK_OUT => some UNLOADING
  | FREE, .FIFO => some MOVING
  | FREE, .FILO => some MOVING
  | FREE, .HOME => some MOVING
  | FREE, .BATTERY_LOW => some LOW_BATTERY
  | FREE, .ERROR => some ERROR
  | BUSY, .DONE => some FREE
  | LOADING, .DONE => some FREE
  | UNLOADING, .DONE => some FREE
  | BUSY, .HOME => some MOVING
  | LOADING, .HOME => some MOVING
  | UNLOADING, .HOME => some MOVING
  | BUSY, .ERROR => some ERROR
  | LOADING, .ERROR => some ERROR
  | UNLOADING, .ERROR => some ERROR
  | MOVING, .DONE => some FREE
  | MOVING, .ERROR => some ERROR
  | ERROR, .RESET => some FREE
  | LOW_BATTERY, .CHARGING => some CHARGING
  | CHARGING, .CHARGED => some FREE
  | CHARGING, .ERROR => some ERROR
  | LOW_BATTERY, .ERROR => some ERROR
  | _, _ => none

/-- Claim C5: the state machine is a pure function of
`(current_status, trigger)`: every pair listed in the legal-transition
table of spec section 4.2 yields exactly the listed next status, and every
unlisted pair is rejected (`none`, so the caller preserves the current
status and no new state is produced).  The source table of
`state_machine.py` agrees with the spec table on every one of the
11 x 13 pairs. -/
theorem c5_state_machine_matches_spec_table :
    ∀ (s : ShuttleOperationalStatus) (t : Trigger),
      try_transition s t.key = spec_transition s t := by
  intro s t
  cases s <;> cases t <;> rfl

/-- Python exception classes that matter to the embedded code. -/
inductive PyErr where
  | typeError
  | indexError
  | timeoutError
  | connectionRefusedError
  | osError (errno : Int)
  | valueError
  | otherError
deriving DecidableEq, Repr

/-- The exception classes caught by `retry_with_backoff`
(`src/services/retry_mechanism.py` line 42):
`asyncio.TimeoutError`, `ConnectionRefusedError`, `OSError`. -/
def PyErr.retriable : PyErr → Bool
  | .timeoutError => true
  | .connectionRefusedError => true
  | .osError _ => true
  | _ => false

/-- Result of one pass through `retry_with_backoff`: the final outcome,
how many calls of the wrapped function were made, and the sleeps (in
milliseconds, jitter included) between them. -/
structure RetryResult (α : Type) where
  outcome : Except PyErr α
  attempts : Nat
  delaysMs : List Int
deriving Repr

/-- Loop body of `retry_with_backoff` (`src/services/retry_mechanism.py`
lines 36-57).  `f k` is the k-th call of the wrapped coroutine (0-based);
`retries` is the Python `retries` counter.  A retriable exception
increments `retries` and, while `retries <= max_retries` still holds,
sleeps `min(base * 2**(retries-1), max_delay)` plus jitter and loops; once
`retries > max_retries` the last exception is re-raised.  A non-retriable
exception is not caught and propagates at once.  Delays are in
milliseconds (the source uses float seconds: base 1.0 s, cap 10.0 s).
`fuel` bounds the loop: every iteration either returns or increments
`retries`, so `max_retries + 1` iterations occur at most and the
exhausted-fuel case is unreachable for the fuel the wrapper supplies. -/
def retry_loop {α : Type} (f : Nat → Except PyErr α)
    (maxRetries baseMs maxMs : Nat) (jitterMs : Nat → Int) :
    Nat → Nat → Nat → List Int → RetryResult α
  | 0, _, attemptIdx, delays => ⟨.error .otherError, attemptIdx, delays.reverse⟩
  | fuel + 1, retries, attemptIdx, delays =>
    match f attemptIdx with
    | .ok v => ⟨.ok v, attemptIdx + 1, delays.reverse⟩
    | .error e =>
      if e.retriable then
        if retries + 1 > maxRetries then
          ⟨.error e, attemptIdx + 1, delays.reverse⟩
        else
          let nominal := min (baseMs * 2 ^ (retries + 1 - 1)) maxMs
          let delay := (nominal : Int) + jitterMs (retries + 1)
          retry_loop f maxRetries baseMs maxMs jitterMs fuel (retries + 1)
            (attemptIdx + 1) (delay :: delays)
      else ⟨.error e, attemptIdx + 1, delays.reverse⟩

/-- `retry_with_backoff(func, *args, max_retries, base_delay, max_delay,
jitter, **kwargs)` of `src/services/retry_mechanism.py`, with the attempt
outcomes supplied as the trace `f` and the random jitter as the oracle
`jitterMs`. -/
def retry_with_backoff {α : Type} (f : Nat → Except PyErr α)
    (maxRetries baseMs maxMs : Nat) (jitterMs : Nat → Int) : RetryResult α :=
  retry_loop f maxRetries baseMs maxMs jitterMs (maxRetries + 1) 0 0 []

/-- Outcome of one TCP send attempt to a shuttle, as the environment
resolves it: connection + write drained, or one of the failure classes of
`send_command_to_shuttle`'s except clauses. -/
inductive NetOutcome where
  | success
  | timeout
  | refused
  | osErr (errno : Int)
  | otherExc
deriving DecidableEq, Repr

/-- Python `params.isdigit()` restricted to ASCII input (all inputs in the
embedded call sites are ASCII): non-empty and every character a decimal
digit. -/
def pyIsdigit (s : String) : Bool :=
  !s.data.isEmpty && s.data.all Char.isDigit

/-- Python truthiness of an `Optional[str]`: `None` and `""` are falsy. -/
def pyTruthy (o : Option String) : Bool :=
  match o with
  | none => false
  | some s => !s.data.isEmpty

/-- Python `int(s)` on a decimal-digit string. -/
def pyInt (s : String) : Nat :=
  s.data.foldl (fun n c => 10 * n + (c.toNat - Char.toNat '0')) 0

/-- Python `f"{n:03}"` for a non-negative int: decimal form, zero-padded on
the left to width 3. -/
def format03 (n : Nat) : String :=
  let s := toString n
  if s.length < 3 then String.mk (List.replicate (3 - s.length) '0') ++ s
  else s

/-- The wire frame built by `send_command_to_shuttle`
(`src/services/shuttle_comms.py` lines 31-36): when `params` is truthy the
frame is `f"{command}-{int(params):03}"`, and a trailing newline is
appended when the frame does not already end with one (the
`full_command.endswith` check of line 35).  In the embedded send path
`params` has already passed `isdigit`, so `int(params)` is defined. -/
def full_command (command : String) (params : Option String) : String :=
  let base :=
    match params with
    | some p => if p.data.isEmpty then command
                else command ++ "-" ++ format03 (pyInt p)
    | none => command
  if base.data.getLast? == some (Char.ofNat 10) then base else base ++ "\n"

/-- What one call of `send_command_to_shuttle` produces: its boolean return
value, the frame written to the socket when the connection succeeded, and
the `{status, error_code}` update it writes through the state store when a
send failure is caught. -/
structure SendResult where
  ok : Bool
  wireWritten : Option String
  stateUpdate : Option (ShuttleOperationalStatus × String)
deriving DecidableEq, Repr

/-- `send_command_to_shuttle` (`src/services/shuttle_comms.py` lines
25-71).  Every failure class — `asyncio.TimeoutError`,
`ConnectionRefusedError`, `OSError`, and any other exception — is caught
*inside* the function, mapped to an `ERROR` state update with a structured
`error_code`, and turned into the return value `False`; the function never
raises, which is why its embedding is a total function rather than an
`Except`. -/
def send_command_to_shuttle (configured : Bool) (command : String)
    (params : Option String) (net : NetOutcome) : SendResult :=
  if !configured then ⟨false, none, none⟩
  else
    let frame := full_command command params
    match net with
    | .success => ⟨true, some frame, none⟩
    | .timeout => ⟨false, none, some (.ERROR, "TCP_TIMEOUT_SEND")⟩
    | .refused => ⟨false, none, some (.ERROR, "CONNECTION_REFUSED")⟩
    | .osErr errno =>
        ⟨false, none, some (.ERROR, "NET_ERROR_" ++ toString errno)⟩
    | .otherExc => ⟨false, none, some (.ERROR, "UNKNOWN_SEND_ERROR")⟩

/-- The fields of `ShuttleState` (`models/shuttle.py`) read by the embedded
operations; the remaining telemetry fields are not consulted by the code
under verification. -/
structure ShuttleState where
  shuttle_id : String
  status : ShuttleOperationalStatus
  current_command : Option String
deriving DecidableEq, Repr

/-- `ALLOWED_WHEN_BUSY_COMMANDS` of `src/services/command_processor.py`
lines 20-27: the bypass set. -/
def ALLOWED_WHEN_BUSY_COMMANDS : List ShuttleCommand :=
  [.HOME, .STATUS, .MRCD, .BATTERY, .WDH, .WLH]

/-- The state-store updates `process_wms_command_internal` applies after a
successful send (`src/services/command_processor.py` lines 95-108). -/
structure PostUpdates where
  last_message_received_from_wms : String
  externaIID : Option String
  document_type : Option String
  statusSetFree : Bool
  currentCommandCleared : Bool
  currentCommandSet : Option String
deriving DecidableEq, Repr

/-- Observable result of one call of `process_wms_command_internal`:
its boolean return value, the metric status label it increments, how many
send attempts were made on the wire, the frame written when a connection
succeeded, whether the pre-HOME `current_command` clearing update ran, the
`ERROR` state update a failed send wrote, and the post-success updates. -/
structure ProcResult where
  success : Bool
  metric : String
  sendAttempts : Nat
  wireWritten : Option String
  clearedCommandBeforeHome : Bool
  errorStateUpdate : Option (ShuttleOperationalStatus × String)
  postUpdate : Option PostUpdates
deriving DecidableEq, Repr

/-- `process_wms_command_internal` (`src/services/command_processor.py`
lines 44-109).  In order: unknown shuttle → `failure_not_found`; admission
control — a command outside `ALLOWED_WHEN_BUSY_COMMANDS` is rejected with
`failure_busy` unless the stored status is `FREE` or `UNKNOWN`; the
pre-HOME clearing of `current_command`; `FIFO`/`FILO` parameter validation
(`not params or not params.isdigit()` → `failure_bad_params`); then the
send through `retry_with_backoff(send_command_to_shuttle, ...,
max_retries=3, base_delay=1.0, max_delay=10.0)`.  Because
`send_command_to_shuttle` returns normally on every failure, the wrapped
call is `Except.ok` on every attempt.  `net k` resolves the k-th send
attempt; `configured` is whether the shuttle is in `SHUTTLES_CONFIG`. -/
def process_wms_command_internal (state? : Option ShuttleState)
    (command : ShuttleCommand) (params externaIID document_type : Option String)
    (configured : Bool) (net : Nat → NetOutcome) (jitterMs : Nat → Int) :
    ProcResult :=
  match state? with
  | none =>
      ⟨false, "failure_not_found", 0, none, false, none, none⟩
  | some shuttle_state =>
    if command ∉ ALLOWED_WHEN_BUSY_COMMANDS ∧
        shuttle_state.status ∉ [ShuttleOperationalStatus.FREE,
          ShuttleOperationalStatus.UNKNOWN] then
      ⟨false, "failure_busy", 0, none, false, none, none⟩
    else
      let cleared := command = ShuttleCommand.HOME ∧
        shuttle_state.current_command ≠ none
      if command ∈ [ShuttleCommand.FIFO_NNN, ShuttleCommand.FILO_NNN] ∧
          (¬ pyTruthy params ∨ ¬ pyIsdigit (params.getD "")) then
        ⟨false, "failure_bad_params", 0, none, decide cleared, none, none⟩
      else
        let param_for_shuttle :=
          if command ∈ [ShuttleCommand.FIFO_NNN, ShuttleCommand.FILO_NNN]
          then params else none
        let r := retry_with_backoff
          (fun k => Except.ok
            (send_command_to_shuttle configured command.value
              param_for_shuttle (net k)))
          3 1000 10000 jitterMs
        match r.outcome with
        | .error _ =>
            -- the `except Exception` branch of lines 88-91; unreachable
            -- because the wrapped call never raises
            ⟨false, "failure_all_retries_failed", r.attempts, none,
              decide cleared, none, none⟩
        | .ok sendRes =>
          let suffix :=
            match params with
            | some p => if p.data.isEmpty then "" else "-" ++ p
            | none => ""
          let post : Option PostUpdates :=
            if sendRes.ok then
              some
                { last_message_received_from_wms := command.value ++ suffix
                  externaIID := externaIID
                  document_type := document_type
                  statusSetFree := command = ShuttleCommand.HOME
                  currentCommandCleared := command = ShuttleCommand.HOME
                  currentCommandSet :=
                    if command ≠ ShuttleCommand.HOME ∧
                        command ≠ ShuttleCommand.MRCD then
                      some (command.value ++ suffix)
                    else none }
            else none
          ⟨sendRes.ok,
           if sendRes.ok then "success" else "failure_send_error",
           r.attempts, sendRes.wireWritten, decide cleared,
           sendRes.stateUpdate, post⟩

/-- The dict enqueued with each command by `add_command_to_queue`
(`src/services/command_processor.py` lines 155-166).  `timestampMs` stands
for the `time.time()` float; ids are minted from the same clock. -/
structure CmdData where
  id : String
  shuttle_id : String
  command : ShuttleCommand
  params : Option String
  externaIID : Option String
  document_type : Option String
  timestampMs : Nat
deriving DecidableEq, Repr, Inhabited

/-- A queue entry: the `(final_priority, data)` 2-tuple the code puts on
the `asyncio.PriorityQueue`.  There is no tie-breaking field between the
integer priority and the dict. -/
abbrev Entry := Nat × CmdData

/-- Python `<` on two queue entries, as `heapq` evaluates it.  Tuple
comparison finds the first index where the components are unequal and
compares there; when the priorities tie and the payload dicts are unequal
the comparison falls through to `dict < dict`, which raises `TypeError`
(dicts are equality-comparable but not orderable). -/
def entryLt (a b : Entry) : Except PyErr Bool :=
  if a.1 ≠ b.1 then .ok (decide (a.1 < b.1))
  else if a.2 = b.2 then .ok false
  else .error .typeError

/-- CPython `heapq._siftdown(heap, startpos, pos)`: move `newitem`
(already conceptually at `pos`) toward the root while it compares less
than its parent; on loop exit write it at its final slot.  `pos` strictly
decreases each iteration (`parentpos = (pos - 1) >> 1`), so `pos + 1`
units of fuel always suffice and the exhausted-fuel case is unreachable
for the fuel the callers supply. -/
def siftdown : Nat → Array Entry → Nat → Nat → Entry →
    Except PyErr (Array Entry)
  | 0, _, _, _, _ => .error .otherError
  | fuel + 1, heap, startpos, pos, newitem =>
    if startpos < pos then
      let parentpos := (pos - 1) / 2
      let parent := heap.getD parentpos default
      do
        let lt ← entryLt newitem parent
        if lt then
          siftdown fuel (heap.setD pos parent) startpos parentpos newitem
        else
          pure (heap.setD pos newitem)
    else
      pure (heap.setD pos newitem)

/-- Loop of CPython `heapq._siftup(heap, pos)`: bubble the hole at `pos`
down to a leaf, always moving up the smaller child; per the source,
`childpos` becomes `rightpos` when `rightpos < endpos and not
heap[childpos] < heap[rightpos]`, and that Python `<` can raise.  Returns
the heap with `newitem` written at the final hole together with that
position.  `pos` at least doubles each iteration while staying below
`endpos`, so `endpos + 1` units of fuel always suffice and the
exhausted-fuel case is unreachable for the fuel `siftup` supplies. -/
def siftupLoop : Nat → Array Entry → Nat → Nat → Nat → Entry →
    Except PyErr (Array Entry × Nat)
  | 0, _, _, _, _, _ => .error .otherError
  | fuel + 1, heap, endpos, startpos, pos, newitem =>
    if 2 * pos + 1 < endpos then
      if 2 * pos + 2 < endpos then do
        let lt ← entryLt (heap.getD (2 * pos + 1) default)
          (heap.getD (2 * pos + 2) default)
        if lt then
          siftupLoop fuel (heap.setD pos (heap.getD (2 * pos + 1) default))
            endpos startpos (2 * pos + 1) newitem
        else
          siftupLoop fuel (heap.setD pos (heap.getD (2 * pos + 2) default))
            endpos startpos (2 * pos + 2) newitem
      else
        siftupLoop fuel (heap.setD pos (heap.getD (2 * pos + 1) default))
          endpos startpos (2 * pos + 1) newitem
    else
      pure (heap.setD pos newitem, pos)

/-- CPython `heapq._siftup(heap, pos)`: after the hole reaches a leaf,
`heap[pos] = newitem` and `_siftdown(heap, startpos, pos)` restores the
invariant upward. -/
def siftup (heap : Array Entry) (pos : Nat) (newitem : Entry) :
    Except PyErr (Array Entry) := do
  let (h1, finalpos) ← siftupLoop (heap.size + 1) heap heap.size pos pos newitem
  siftdown (finalpos + 1) h1 pos finalpos newitem

/-- CPython `heapq.heappush(heap, item)` — what
`asyncio.PriorityQueue._put` runs: append then `_siftdown(heap, 0,
len(heap)-1)`. -/
def heappush (heap : Array Entry) (item : Entry) : Except PyErr (Array Entry) :=
  siftdown (heap.size + 1) (heap.push item) 0 heap.size item

/-- CPython `heapq.heappop(heap)` — what `asyncio.PriorityQueue._get`
runs: pop the last element; if the heap is still non-empty, take the root
as the return value, move the last element to the root and `_siftup`. -/
def heappop (heap : Array Entry) : Except PyErr (Entry × Array Entry) :=
  if heap.size = 0 then .error .indexError
  else
    let lastelt := heap.getD (heap.size - 1) default
    let rest := heap.pop
    if rest.size = 0 then pure (lastelt, rest)
    else do
      let returnitem := rest.getD 0 default
      let rest' ← siftup (rest.setD 0 lastelt) 0 lastelt
      pure (returnitem, rest')

/-- Result of `submit` (`add_command_to_queue`): a minted `command_id` when
the command was enqueued, the boolean result of immediate bypass
execution, `blocked` when `await queue.put(...)` parks on a full queue
(`asyncio.Queue.put` waits for space — it never raises `QueueFull`, so the
`except asyncio.QueueFull` branch of lines 172-174 is unreachable), or an
exception escaping the call (heap insertion can raise `TypeError`, which
only `QueueFull` — never raised — is caught against). -/
inductive SubmitOutcome where
  | commandId (id : String)
  | ret (b : Bool)
  | blocked
  | raised (e : PyErr)
deriving DecidableEq, Repr

/-- The `command_priorities` dict of `add_command_to_queue`
(`src/services/command_processor.py` lines 115-129); every command is a
key, so the `.get(command, 10)` default is never taken. -/
def command_priorities : ShuttleCommand → Nat
  | .HOME => 1
  | .STATUS => 2
  | .BATTERY => 3
  | .MRCD => 4
  | .PALLET_OUT => 5
  | .PALLET_IN => 6
  | .STACK_OUT => 7
  | .STACK_IN => 8
  | .FIFO_NNN => 9
  | .FILO_NNN => 10
  | .COUNT => 11
  | .WDH => 12
  | .WLH => 13

/-- `command_id = f"{shuttle_id}_{command.value}_{int(time.time()*1000)}"`
(line 152). -/
def mint_command_id (shuttle_id : String) (command : ShuttleCommand)
    (nowMs : Nat) : String :=
  shuttle_id ++ "_" ++ command.value ++ "_" ++ toString nowMs

/-- One entry of `command_registry`; only `shuttle_id` and the lifecycle
`status` string are consulted by the embedded code. -/
structure RegEntry where
  shuttle_id : String
  status : String
deriving DecidableEq, Repr

/-- The in-memory `command_registry` map
(`src/services/command_processor.py` line 17). -/
abbrev Registry := List (String × RegEntry)

/-- Overwrite the `status` field of the registry entry keyed `cid`. -/
def registry_set_status (reg : Registry) (cid : String) (st : String) :
    Registry :=
  reg.map (fun p => if p.1 = cid then (p.1, { p.2 with status := st }) else p)

/-- What `add_command_to_queue` leaves behind: its return value, the
shuttle's queue, and the command registry. -/
structure SubmitResult where
  outcome : SubmitOutcome
  queue : Array Entry
  registry : Registry
deriving Repr

/-- `add_command_to_queue` (`src/services/command_processor.py` lines
111-174).  `final_priority = min(command_priorities[command], priority)`;
a command in `ALLOWED_WHEN_BUSY_COMMANDS` is executed immediately under
the shuttle's lock and its boolean result returned; any other command is
wrapped as `(final_priority, data)` and `await`-put on the shuttle's
bounded `asyncio.PriorityQueue`.  Queueing never consults the shuttle's
stored status, and no code path in the module ever inserts the minted id
into `command_registry`, so the registry passes through unchanged.  When
the heap comparison inside `put` raises `TypeError` the exception escapes
(CPython also leaves the list with the item appended mid-sift; no theorem
below inspects a queue after a raised operation, so the model keeps the
pre-call queue alongside the escaping error). -/
def add_command_to_queue (state? : Option ShuttleState) (shuttle_id : String)
    (command : ShuttleCommand)
    (params externaIID document_type : Option String) (priority : Nat)
    (queue : Array Entry) (maxsize : Nat) (registry : Registry)
    (nowMs : Nat) (configured : Bool) (net : Nat → NetOutcome)
    (jitterMs : Nat → Int) : SubmitResult :=
  let final_priority := min (command_priorities command) priority
  if command ∈ ALLOWED_WHEN_BUSY_COMMANDS then
    ⟨.ret (process_wms_command_internal state? command params externaIID
        document_type configured net jitterMs).success,
     queue, registry⟩
  else
    let command_id := mint_command_id shuttle_id command nowMs
    let data : CmdData :=
      { id := command_id, shuttle_id := shuttle_id, command := command,
        params := params, externaIID := externaIID,
        document_type := document_type, timestampMs := nowMs }
    if maxsize ≤ queue.size then
      ⟨.blocked, queue, registry⟩
    else
      match heappush queue (final_priority, data) with
      | .ok q2 => ⟨.commandId command_id, q2, registry⟩
      | .error e => ⟨.raised e, queue, registry⟩

/-- What one per-shuttle iteration of `command_processor_worker` did. -/
inductive WorkerAction where
  | skippedLocked
  | skippedNotFree
  | queueEmpty
  | discardedCancelled (id : String)
  | dispatched (data : CmdData) (success : Bool)
  | raised (e : PyErr)
deriving DecidableEq, Repr

/-- Queue and registry after a worker iteration, with what happened. -/
structure WorkerStepResult where
  action : WorkerAction
  queue : Array Entry
  registry : Registry
deriving Repr

/-- The per-shuttle body of `command_processor_worker`
(`src/services/command_processor.py` lines 180-218): skip the shuttle when
its lock is held; skip unless the stored status is exactly `FREE`; then a
non-blocking dequeue (`QueueEmpty` → pass), the cancelled-in-registry
check (which drops the already-dequeued command), the `processing` mark,
execution under the lock, and the `completed`/`failed` mark.  Registry
marks are written only `if command_id in command_registry`. -/
def command_processor_worker_step (lockHeld : Bool)
    (status : ShuttleOperationalStatus) (queue : Array Entry)
    (registry : Registry) (state? : Option ShuttleState) (configured : Bool)
    (net : Nat → NetOutcome) (jitterMs : Nat → Int) : WorkerStepResult :=
  if lockHeld then ⟨.skippedLocked, queue, registry⟩
  else if status ≠ ShuttleOperationalStatus.FREE then
    ⟨.skippedNotFree, queue, registry⟩
  else if queue.size = 0 then ⟨.queueEmpty, queue, registry⟩
  else
    match heappop queue with
    | .error e => ⟨.raised e, queue, registry⟩
    | .ok (pd, q2) =>
      let command_id := pd.2.id
      let entry? := registry.lookup command_id
      if entry?.map RegEntry.status = some "cancelled" then
        ⟨.discardedCancelled command_id, q2, registry⟩
      else
        let reg1 := if entry?.isSome then
          registry_set_status registry command_id "processing" else registry
        let pr := process_wms_command_internal state? pd.2.command pd.2.params
          pd.2.externaIID pd.2.document_type configured net jitterMs
        let reg2 := if (reg1.lookup command_id).isSome then
          registry_set_status reg1 command_id
            (if pr.success then "completed" else "failed")
          else reg1
        ⟨.dispatched pd.2 pr.success, q2, reg2⟩

/-- One observation of the worker's environment when it reaches a given
shuttle: the lock state and the stored status it reads, plus the state
record and network behaviour a dispatch would see. -/
structure WorkerObs where
  lockHeld : Bool
  status : ShuttleOperationalStatus
  state? : Option ShuttleState
  net : Nat → NetOutcome

/-- Repeated worker visits to one shuttle, folding
`command_processor_worker_step` over the successive observations and
collecting the actions taken. -/
def worker_run (obs : List WorkerObs) (queue : Array Entry)
    (registry : Registry) (configured : Bool) (jitterMs : Nat → Int) :
    Array Entry × Registry × List WorkerAction :=
  match obs with
  | [] => (queue, registry, [])
  | o :: rest =>
    let r := command_processor_worker_step o.lockHeld o.status queue registry
      o.state? configured o.net jitterMs
    let w := worker_run rest r.queue r.registry configured jitterMs
    (w.1, w.2.1, r.action :: w.2.2)

/-- The drain loop of `cancel_command`
(`src/services/command_processor.py` lines 252-259): pop every entry off
the shuttle queue, re-pushing all but the targeted id onto a fresh
temporary priority queue.  `fuel` mirrors the `while not empty` guard;
each `heappop` shrinks the queue by one, so `fuel = queue.size` runs the
loop to emptiness. -/
def cancel_drain (fuel : Nat) (queue temp : Array Entry) (cid : String) :
    Except PyErr (Array Entry) :=
  match fuel with
  | 0 => pure temp
  | fuel+1 =>
    if queue.size = 0 then pure temp
    else do
      let (pd, q2) ← heappop queue
      if pd.2.id ≠ cid then
        let t2 ← heappush temp pd
        cancel_drain fuel q2 t2 cid
      else
        cancel_drain fuel q2 temp cid

/-- The restore loop of `cancel_command` (lines 261-267): pop everything
off the temporary queue back onto the shuttle queue. -/
def cancel_restore (fuel : Nat) (temp queue : Array Entry) :
    Except PyErr (Array Entry) :=
  match fuel with
  | 0 => pure queue
  | fuel+1 =>
    if temp.size = 0 then pure queue
    else do
      let (item, t2) ← heappop temp
      let q2 ← heappush queue item
      cancel_restore fuel t2 q2

/-- `cancel_command(command_id)` (`src/services/command_processor.py`
lines 228-278): unknown id → `False`; an entry whose status is not
`"queued"` → `False`; otherwise drain the shuttle queue dropping the id,
restore the survivors, and mark the entry `"cancelled"` (returning
`True`). -/
def cancel_command (registry : Registry) (queue : Array Entry)
    (command_id : String) : Except PyErr (Bool × Registry × Array Entry) :=
  match registry.lookup command_id with
  | none => pure (false, registry, queue)
  | some info =>
    if info.status = "queued" then do
      -- the drain runs the shuttle queue down to empty, so the restore
      -- pushes the survivors back into the now-empty shuttle queue
      let temp ← cancel_drain queue.size queue #[] command_id
      let q3 ← cancel_restore temp.size temp #[]
      pure (true, registry_set_status registry command_id "cancelled", q3)
    else
      pure (false, registry, queue)

/-- I/O actions of the per-connection loop of `handle_shuttle_client`,
in the order they occur on the wire. -/
inductive IoAction where
  | readLine
  | processedMsg (msg : String)
  | wroteAck
deriving DecidableEq, Repr

/-- Python `str.strip()` on ASCII input: drop leading and trailing
whitespace. -/
def pyStrip (s : String) : String :=
  String.mk
    (((s.data.dropWhile Char.isWhitespace).reverse.dropWhile
      Char.isWhitespace).reverse)

/-- Python `str.upper()` on ASCII input. -/
def pyUpper (s : String) : String := String.mk (s.data.map Char.toUpper)

/-- The read-process-acknowledge loop of `handle_shuttle_client`
(`src/services/shuttle_comms.py` lines 262-282) as a trace over the raw
lines arriving on one accepted connection: each line is read
(`readuntil(b'\n')`), stripped and dispatched, and then, only when
`message_str.upper() != ShuttleCommand.MRCD.value`, an `MRCD\n` frame is
written back before the next read. -/
def handle_shuttle_client_trace : List String → List IoAction
  | [] => []
  | raw :: rest =>
    let msg := pyStrip raw
    IoAction.readLine :: IoAction.processedMsg msg ::
      ((if pyUpper msg ≠ ShuttleCommand.MRCD.value then [IoAction.wroteAck]
        else []) ++ handle_shuttle_client_trace rest)

/-- Claim C1, counterexample: with the stored status `BUSY`, a
`PALLET_OUT` command is rejected with `failure_busy` and nothing is sent
(`sendAttempts = 0`).  `PALLET_OUT` is not in `ALLOWED_WHEN_BUSY_COMMANDS`
and lines 54-58 of `command_processor.py` contain no `PALLET_OUT`
exception, so the claimed permission of `PALLET_OUT` while `BUSY` is
false. -/
theorem c1_counterexample :
    process_wms_command_internal
      (some ⟨"shuttle_1", ShuttleOperationalStatus.BUSY, some "PALLET_IN"⟩)
      ShuttleCommand.PALLET_OUT none none none true
      (fun _ => NetOutcome.success) (fun _ => 0) =
    ⟨false, "failure_busy", 0, none, false, none, none⟩ := by
  rfl

/-- Claim C1 as amended: every command outside
`ALLOWED_WHEN_BUSY_COMMANDS` — `PALLET_OUT` included — submitted for a
shuttle whose stored status is not in `{FREE, UNKNOWN}` is rejected with
`failure_busy` and is not sent; there is no `PALLET_OUT`-while-`BUSY`
exception. -/
theorem c1_amended (st : ShuttleState) (command : ShuttleCommand)
    (params externaIID document_type : Option String) (configured : Bool)
    (net : Nat → NetOutcome) (jitterMs : Nat → Int)
    (hcmd : command ∉ ALLOWED_WHEN_BUSY_COMMANDS)
    (hst : st.status ∉ [ShuttleOperationalStatus.FREE,
      ShuttleOperationalStatus.UNKNOWN]) :
    process_wms_command_internal (some st) command params externaIID
      document_type configured net jitterMs =
    ⟨false, "failure_busy", 0, none, false, none, none⟩ := by
  simp only [process_wms_command_internal]
  rw [if_pos ⟨hcmd, hst⟩]

/-- Witness for `c1_amended` at a concrete input: `STACK_IN` for a
shuttle whose stored status is `MOVING`. -/
theorem c1_amended_witness :
    ShuttleCommand.STACK_IN ∉ ALLOWED_WHEN_BUSY_COMMANDS ∧
    (⟨"shuttle_1", ShuttleOperationalStatus.MOVING, none⟩ :
        ShuttleState).status ∉ [ShuttleOperationalStatus.FREE,
      ShuttleOperationalStatus.UNKNOWN] ∧
    process_wms_command_internal
      (some ⟨"shuttle_1", ShuttleOperationalStatus.MOVING, none⟩)
      ShuttleCommand.STACK_IN none none none true
      (fun _ => NetOutcome.success) (fun _ => 0) =
    ⟨false, "failure_busy", 0, none, false, none, none⟩ :=
  ⟨by decide, by decide,
   c1_amended ⟨"shuttle_1", ShuttleOperationalStatus.MOVING, none⟩
     ShuttleCommand.STACK_IN none none none true
     (fun _ => NetOutcome.success) (fun _ => 0) (by decide) (by decide)⟩

/-- Claim C2: the code cannot cancel anything.  `add_command_to_queue`
mints a `command_id` and returns it "for later cancellation", but no code
path in the repository ever inserts that id into `command_registry`
(module-initialised empty at line 17); `cancel_command` therefore hits its
`command_id not in command_registry` guard and returns `False`, and the
command stays in the queue and will still be dispatched.  This theorem
evaluates the code at the failing input: one `PALLET_IN` queued to
`shuttle_1`, then `cancel` of the very id `submit` returned. -/
theorem c2_cancel_of_queued_command_fails :
    (add_command_to_queue
      (some ⟨"shuttle_1", ShuttleOperationalStatus.UNKNOWN, none⟩)
      "shuttle_1" ShuttleCommand.PALLET_IN none none none 10 #[] 1000 []
      1000 true (fun _ => NetOutcome.success) (fun _ => 0)).outcome =
      SubmitOutcome.commandId "shuttle_1_PALLET_IN_1000" ∧
    (add_command_to_queue
      (some ⟨"shuttle_1", ShuttleOperationalStatus.UNKNOWN, none⟩)
      "shuttle_1" ShuttleCommand.PALLET_IN none none none 10 #[] 1000 []
      1000 true (fun _ => NetOutcome.success) (fun _ => 0)).registry = [] ∧
    cancel_command
      (add_command_to_queue
        (some ⟨"shuttle_1", ShuttleOperationalStatus.UNKNOWN, none⟩)
        "shuttle_1" ShuttleCommand.PALLET_IN none none none 10 #[] 1000 []
        1000 true (fun _ => NetOutcome.success) (fun _ => 0)).registry
      (add_command_to_queue
        (some ⟨"shuttle_1", ShuttleOperationalStatus.UNKNOWN, none⟩)
        "shuttle_1" ShuttleCommand.PALLET_IN none none none 10 #[] 1000 []
        1000 true (fun _ => NetOutcome.success) (fun _ => 0)).queue
      "shuttle_1_PALLET_IN_1000" =
    Except.ok (false, [],
      (add_command_to_queue
        (some ⟨"shuttle_1", ShuttleOperationalStatus.UNKNOWN, none⟩)
        "shuttle_1" ShuttleCommand.PALLET_IN none none none 10 #[] 1000 []
        1000 true (fun _ => NetOutcome.success) (fun _ => 0)).queue) := by
  refine ⟨rfl, rfl, rfl⟩

/-- Claim C3: equal-priority ordering is broken, because the queue entries
are bare `(priority, dict)` 2-tuples with no tie-breaking field.  This
theorem evaluates the code at the spec's own scenario (several commands
submitted at equal priority to one shuttle): the first `PALLET_IN`
(final priority `min(6, 10) = 6`) is queued, and the second submission's
`heappush` compares the new entry with its equal-priority parent, falls
through to `dict < dict`, and raises `TypeError`, which escapes
`add_command_to_queue` (only `QueueFull` is caught there).  The claimed
`(priority asc, enqueued_at asc)` dequeue order therefore cannot be
delivered for equal priorities. -/
theorem c3_equal_priority_submission_raises :
    (add_command_to_queue
      (some ⟨"shuttle_1", ShuttleOperationalStatus.UNKNOWN, none⟩)
      "shuttle_1" ShuttleCommand.PALLET_IN none (some "E1") none 10 #[] 1000
      [] 1000 true (fun _ => NetOutcome.success) (fun _ => 0)).outcome =
      SubmitOutcome.commandId "shuttle_1_PALLET_IN_1000" ∧
    (add_command_to_queue
      (some ⟨"shuttle_1", ShuttleOperationalStatus.UNKNOWN, none⟩)
      "shuttle_1" ShuttleCommand.PALLET_IN none (some "E2") none 10
      (add_command_to_queue
        (some ⟨"shuttle_1", ShuttleOperationalStatus.UNKNOWN, none⟩)
        "shuttle_1" ShuttleCommand.PALLET_IN none (some "E1") none 10 #[]
        1000 [] 1000 true (fun _ => NetOutcome.success) (fun _ => 0)).queue
      1000 [] 2000 true (fun _ => NetOutcome.success) (fun _ => 0)).outcome =
      SubmitOutcome.raised PyErr.typeError := by
  exact ⟨rfl, rfl⟩

/-- Claim C9: insertion into the per-shuttle priority queue is *not* total
when integer priorities tie.  Two `STACK_IN` submissions both get final
priority `min(8, 10) = 8`; pushing the second entry makes `heapq` compare
`(8, dict)` tuples whose first components are equal, so the comparison
falls through to the unequal dict payloads and raises
`TypeError` (dicts are not orderable), which escapes
`add_command_to_queue`. -/
theorem c9_equal_priority_heap_insert_not_total :
    (add_command_to_queue
      (some ⟨"shuttle_2", ShuttleOperationalStatus.FREE, none⟩)
      "shuttle_2" ShuttleCommand.STACK_IN none none none 10 #[] 1000 []
      3000 true (fun _ => NetOutcome.success) (fun _ => 0)).outcome =
      SubmitOutcome.commandId "shuttle_2_STACK_IN_3000" ∧
    (add_command_to_queue
      (some ⟨"shuttle_2", ShuttleOperationalStatus.FREE, none⟩)
      "shuttle_2" ShuttleCommand.STACK_IN none none none 10
      (add_command_to_queue
        (some ⟨"shuttle_2", ShuttleOperationalStatus.FREE, none⟩)
        "shuttle_2" ShuttleCommand.STACK_IN none none none 10 #[] 1000 []
        3000 true (fun _ => NetOutcome.success) (fun _ => 0)).queue
      1000 [] 4000 true (fun _ => NetOutcome.success) (fun _ => 0)).outcome =
      SubmitOutcome.raised PyErr.typeError := by
  exact ⟨rfl, rfl⟩

/-- Claim C8: the dispatch path never actually retries.
`send_command_to_shuttle` catches `asyncio.TimeoutError`,
`ConnectionRefusedError`, `OSError` and every other exception *inside*
itself and returns `False`, so `retry_with_backoff` — invoked with
`max_retries=3, base_delay=1.0, max_delay=10.0` precisely to retry those
errors — sees a normal return on the first call and never sleeps or
retries.  First conjunct: with every connection refused, dispatching
`PALLET_IN` makes exactly one send attempt, returns `False`, and leaves
the `ERROR`/`CONNECTION_REFUSED` state update (so the exhausted-retries
state claimed by the spec is reached, but after one attempt, not 1+3).
Second conjunct: had the send raised, the very same
`retry_with_backoff` would have made 1+3 attempts with nominal backoff
sleeps of 1 s, 2 s, 4 s (milliseconds here, zero jitter), matching the
spec's schedule — the retry helper is sound but dead. -/
theorem c8_dispatch_makes_single_attempt :
    (process_wms_command_internal
      (some ⟨"shuttle_1", ShuttleOperationalStatus.FREE, none⟩)
      ShuttleCommand.PALLET_IN none none none true
      (fun _ => NetOutcome.refused) (fun _ => 0) =
      ⟨false, "failure_send_error", 1, none, false,
        some (ShuttleOperationalStatus.ERROR, "CONNECTION_REFUSED"),
        none⟩) ∧
    (retry_with_backoff
        (fun _ => (Except.error PyErr.connectionRefusedError :
          Except PyErr Bool)) 3 1000 10000 (fun _ => 0)).outcome =
      Except.error PyErr.connectionRefusedError ∧
    (retry_with_backoff
        (fun _ => (Except.error PyErr.connectionRefusedError :
          Except PyErr Bool)) 3 1000 10000 (fun _ => 0)).attempts = 4 ∧
    (retry_with_backoff
        (fun _ => (Except.error PyErr.connectionRefusedError :
          Except PyErr Bool)) 3 1000 10000 (fun _ => 0)).delaysMs =
      [1000, 2000, 4000] := by
  exact ⟨rfl, rfl, rfl, rfl⟩

/-- Claim C4, counterexample: `submit` does *not* return `false` for bad
parameters.  A `FIFO` command with the non-numeric params `"abc"` is a
non-bypass command, so `add_command_to_queue` enqueues it without any
parameter validation (that check lives in `process_wms_command_internal`
and only runs at dispatch time) and returns a `command_id`. -/
theorem c4_counterexample :
    (add_command_to_queue
      (some ⟨"shuttle_1", ShuttleOperationalStatus.FREE, none⟩)
      "shuttle_1" ShuttleCommand.FIFO_NNN (some "abc") none none 10 #[]
      1000 [] 1000 true (fun _ => NetOutcome.success) (fun _ => 0)).outcome =
      SubmitOutcome.commandId "shuttle_1_FIFO_1000" := by
  rfl

/-- Claim C4 as amended: `submit` (`add_command_to_queue`) returns a
`command_id` exactly when the command is non-bypass and was enqueued
(the id being the minted `shuttle_id_command_ms` string, which requires a
non-full queue), returns the bypass execution result (`true` on a
successful send, `false` on failure) exactly for commands in the bypass
set, and never returns `false` for a non-bypass command: a full queue
makes `await put` block (the `except QueueFull` branch is dead code), and
bad-params/busy rejections happen only at dispatch time inside
`process_wms_command_internal`, so such submissions still return a
`command_id`. -/
theorem c4_amended (state? : Option ShuttleState) (shuttle_id : String)
    (command : ShuttleCommand)
    (params externaIID document_type : Option String) (priority : Nat)
    (queue : Array Entry) (maxsize : Nat) (registry : Registry)
    (nowMs : Nat) (configured : Bool) (net : Nat → NetOutcome)
    (jitterMs : Nat → Int) :
    (command ∈ ALLOWED_WHEN_BUSY_COMMANDS →
      (add_command_to_queue state? shuttle_id command params externaIID
        document_type priority queue maxsize registry nowMs configured net
        jitterMs).outcome =
      SubmitOutcome.ret (process_wms_command_internal state? command params
        externaIID document_type configured net jitterMs).success) ∧
    (command ∉ ALLOWED_WHEN_BUSY_COMMANDS → maxsize ≤ queue.size →
      (add_command_to_queue state? shuttle_id command params externaIID
        document_type priority queue maxsize registry nowMs configured net
        jitterMs).outcome = SubmitOutcome.blocked) ∧
    (command ∉ ALLOWED_WHEN_BUSY_COMMANDS →
      ∀ b, (add_command_to_queue state? shuttle_id command params externaIID
        document_type priority queue maxsize registry nowMs configured net
        jitterMs).outcome ≠ SubmitOutcome.ret b) ∧
    (∀ id, (add_command_to_queue state? shuttle_id command params externaIID
        document_type priority queue maxsize registry nowMs configured net
        jitterMs).outcome = SubmitOutcome.commandId id →
      command ∉ ALLOWED_WHEN_BUSY_COMMANDS ∧ queue.size < maxsize ∧
      id = mint_command_id shuttle_id command nowMs) := by
  refine ⟨?_, ?_, ?_, ?_⟩
  · intro h
    simp only [add_command_to_queue]
    rw [if_pos h]
  · intro h hfull
    simp only [add_command_to_queue]
    rw [if_neg h, if_pos hfull]
  · intro h b
    simp only [add_command_to_queue]
    rw [if_neg h]
    by_cases hfull : maxsize ≤ queue.size
    · rw [if_pos hfull]
      simp
    · rw [if_neg hfull]
      split <;> simp
  · intro id
    simp only [add_command_to_queue]
    by_cases h : command ∈ ALLOWED_WHEN_BUSY_COMMANDS
    · rw [if_pos h]
      simp
    · rw [if_neg h]
      by_cases hfull : maxsize ≤ queue.size
      · rw [if_pos hfull]
        simp
      · rw [if_neg hfull]
        split <;> simp_all

/-- Witness for `c4_amended` at concrete inputs: a bypass `STATUS` command
comes back as `ret true`, and a non-bypass `PALLET_IN` on a
zero-capacity queue blocks. -/
theorem c4_amended_witness :
    (add_command_to_queue
      (some ⟨"shuttle_1", ShuttleOperationalStatus.BUSY, none⟩) "shuttle_1"
      ShuttleCommand.STATUS none none none 10 #[] 1000 [] 5000 true
      (fun _ => NetOutcome.success) (fun _ => 0)).outcome =
      SubmitOutcome.ret true ∧
    (add_command_to_queue
      (some ⟨"shuttle_1", ShuttleOperationalStatus.FREE, none⟩) "shuttle_1"
      ShuttleCommand.PALLET_IN none none none 10 #[] 0 [] 5000 true
      (fun _ => NetOutcome.success) (fun _ => 0)).outcome =
      SubmitOutcome.blocked := by
  constructor
  · rw [(c4_amended
      (some ⟨"shuttle_1", ShuttleOperationalStatus.BUSY, none⟩) "shuttle_1"
      ShuttleCommand.STATUS none none none 10 #[] 1000 [] 5000 true
      (fun _ => NetOutcome.success) (fun _ => 0)).1 (by decide)]
    rfl
  · exact (c4_amended
      (some ⟨"shuttle_1", ShuttleOperationalStatus.FREE, none⟩) "shuttle_1"
      ShuttleCommand.PALLET_IN none none none 10 #[] 0 [] 5000 true
      (fun _ => NetOutcome.success) (fun _ => 0)).2.1 (by decide)
      (by decide)

/-- Claim C6: `FIFO`/`FILO` execution requires a non-empty numeric params
string — `not params or not params.isdigit()` fails the command with
`failure_bad_params` and zero send attempts — and with valid params the
frame on the wire is the command token with the count zero-padded to
three digits.  First conjunct: the general validation law for any
`FIFO`/`FILO` command reaching execution (stored status `FREE` or
`UNKNOWN`, so admission does not mask the params check).  Remaining
conjuncts: the spec's own probes — params `""` and `"abc"` are rejected,
and params `"1"` is accepted with the exact frame `"FIFO-001\n"`. -/
theorem c6_fifo_filo_param_validation_and_wire :
    (∀ (st : ShuttleState) (command : ShuttleCommand)
        (params externaIID document_type : Option String) (configured : Bool)
        (net : Nat → NetOutcome) (jitterMs : Nat → Int),
      (command = ShuttleCommand.FIFO_NNN ∨ command = ShuttleCommand.FILO_NNN) →
      (st.status = ShuttleOperationalStatus.FREE ∨
        st.status = ShuttleOperationalStatus.UNKNOWN) →
      (¬ pyTruthy params ∨ ¬ pyIsdigit (params.getD "")) →
      process_wms_command_internal (some st) command params externaIID
        document_type configured net jitterMs =
      ⟨false, "failure_bad_params", 0, none, false, none, none⟩) ∧
    process_wms_command_internal
      (some ⟨"shuttle_1", ShuttleOperationalStatus.FREE, none⟩)
      ShuttleCommand.FIFO_NNN (some "") none none true
      (fun _ => NetOutcome.success) (fun _ => 0) =
      ⟨false, "failure_bad_params", 0, none, false, none, none⟩ ∧
    process_wms_command_internal
      (some ⟨"shuttle_1", ShuttleOperationalStatus.FREE, none⟩)
      ShuttleCommand.FIFO_NNN (some "abc") none none true
      (fun _ => NetOutcome.success) (fun _ => 0) =
      ⟨false, "failure_bad_params", 0, none, false, none, none⟩ ∧
    (process_wms_command_internal
      (some ⟨"shuttle_1", ShuttleOperationalStatus.FREE, none⟩)
      ShuttleCommand.FIFO_NNN (some "1") none none true
      (fun _ => NetOutcome.success) (fun _ => 0)).success = true ∧
    (process_wms_command_internal
      (some ⟨"shuttle_1", ShuttleOperationalStatus.FREE, none⟩)
      ShuttleCommand.FIFO_NNN (some "1") none none true
      (fun _ => NetOutcome.success) (fun _ => 0)).wireWritten =
      some "FIFO-001\n" ∧
    full_command "FIFO" (some "7") = "FIFO-007\n" := by
  refine ⟨?_, rfl, rfl, rfl, rfl, rfl⟩
  intro st command params externaIID document_type configured net jitterMs
    hcmd hst hbad
  have hmem : st.status ∈ [ShuttleOperationalStatus.FREE,
      ShuttleOperationalStatus.UNKNOWN] := by
    rcases hst with h | h <;> simp [h]
  have hnotbusy : ¬ (command ∉ ALLOWED_WHEN_BUSY_COMMANDS ∧
      st.status ∉ [ShuttleOperationalStatus.FREE,
        ShuttleOperationalStatus.UNKNOWN]) :=
    fun hc => hc.2 hmem
  rcases hcmd with rfl | rfl <;>
    · simp only [process_wms_command_internal]
      rw [if_neg hnotbusy, if_pos ⟨by simp, hbad⟩]
      rfl

/-- Witness for the universally quantified conjunct of
`c6_fifo_filo_param_validation_and_wire`: a `FILO` command with the
non-numeric params `"12x"` on an `UNKNOWN`-status shuttle is rejected with
`failure_bad_params` and zero send attempts. -/
theorem c6_witness :
    process_wms_command_internal
      (some ⟨"shuttle_2", ShuttleOperationalStatus.UNKNOWN, none⟩)
      ShuttleCommand.FILO_NNN (some "12x") none none true
      (fun _ => NetOutcome.success) (fun _ => 0) =
      ⟨false, "failure_bad_params", 0, none, false, none, none⟩ :=
  c6_fifo_filo_param_validation_and_wire.1
    ⟨"shuttle_2", ShuttleOperationalStatus.UNKNOWN, none⟩
    ShuttleCommand.FILO_NNN (some "12x") none none true
    (fun _ => NetOutcome.success) (fun _ => 0) (Or.inr rfl) (Or.inr rfl)
    (by decide)

/-- Claim C7, counterexample: the gateway matches the acknowledgement
token case-insensitively (`message_str.upper() != "MRCD"`), so the
inbound line `"mrcd\n"` — whose stripped form `"mrcd"` is *not* the string
`"MRCD"` — receives no `MRCD` acknowledgement at all: the connection trace
for it contains no write.  The claim that every received non-`MRCD` line
is acknowledged is therefore false at this input. -/
theorem c7_counterexample :
    pyStrip "mrcd\n" ≠ "MRCD" ∧
    handle_shuttle_client_trace ["mrcd\n"] =
      [IoAction.readLine, IoAction.processedMsg "mrcd"] ∧
    IoAction.wroteAck ∉ handle_shuttle_client_trace ["mrcd\n"] := by
  refine ⟨by decide, by decide, by decide⟩

/-- Claim C7 as amended: for every accepted connection and every received
line, the line is read and processed, and an `MRCD\n` acknowledgement is
written on the same connection before the next line is read if and only
if the stripped line uppercased is not `MRCD`; for a line uppercasing to
`MRCD` nothing is written.  Formally: around any one received line the
trace splits into the traffic for the earlier lines, this line's read and
processing, its acknowledgement exactly when `upper(strip(line)) ≠
"MRCD"`, and only then the traffic for the later lines. -/
theorem c7_amended (before after : List String) (r : String) :
    handle_shuttle_client_trace (before ++ r :: after) =
      handle_shuttle_client_trace before ++
      IoAction.readLine :: IoAction.processedMsg (pyStrip r) ::
      ((if pyUpper (pyStrip r) ≠ ShuttleCommand.MRCD.value then
          [IoAction.wroteAck] else []) ++
        handle_shuttle_client_trace after) := by
  induction before with
  | nil => simp [handle_shuttle_client_trace]
  | cons x xs ih => simp [handle_shuttle_client_trace, ih]

/-- Claim C10: the worker removes a command from a shuttle's queue only
when the shuttle's mutex is unlocked and its stored status is exactly
`FREE` (lines 182-187: a locked mutex or any other status makes the
worker `continue` without touching the queue), while submission never
consults the stored status at all, so a non-bypass command submitted
while the status is `UNKNOWN` is accepted into the queue yet sits there —
across arbitrarily many worker visits — until the status becomes `FREE`.
First conjunct: over any run of worker visits in which the shuttle is
locked or its status is never `FREE`, the queue and registry are
unchanged and every action is a skip.  Second conjunct: a non-bypass
submission into an empty queue returns the minted `command_id` for any
stored state, `UNKNOWN` included. -/
theorem c10_worker_dequeues_only_when_free :
    (∀ (obs : List WorkerObs) (queue : Array Entry) (registry : Registry)
        (configured : Bool) (jitterMs : Nat → Int),
      (∀ o ∈ obs, o.lockHeld = true ∨
        o.status ≠ ShuttleOperationalStatus.FREE) →
      (worker_run obs queue registry configured jitterMs).1 = queue ∧
      (worker_run obs queue registry configured jitterMs).2.1 = registry ∧
      (∀ a ∈ (worker_run obs queue registry configured jitterMs).2.2,
        a = WorkerAction.skippedLocked ∨ a = WorkerAction.skippedNotFree)) ∧
    (∀ (state? : Option ShuttleState) (shuttle_id : String)
        (command : ShuttleCommand)
        (params externaIID document_type : Option String) (priority : Nat)
        (maxsize : Nat) (registry : Registry) (nowMs : Nat)
        (configured : Bool) (net : Nat → NetOutcome) (jitterMs : Nat → Int),
      command ∉ ALLOWED_WHEN_BUSY_COMMANDS → 0 < maxsize →
      (add_command_to_queue state? shuttle_id command params externaIID
        document_type priority #[] maxsize registry nowMs configured net
        jitterMs).outcome =
        SubmitOutcome.commandId (mint_command_id shuttle_id command nowMs)) := by
  constructor
  · intro obs
    induction obs with
    | nil =>
      intro queue registry configured jitterMs _
      exact ⟨rfl, rfl, by intro a ha; cases ha⟩
    | cons o rest ih =>
      intro queue registry configured jitterMs h
      have ho := h o (List.mem_cons_self o rest)
      have hrest : ∀ o' ∈ rest, o'.lockHeld = true ∨
          o'.status ≠ ShuttleOperationalStatus.FREE :=
        fun o' ho' => h o' (List.mem_cons_of_mem _ ho')
      have hstep : command_processor_worker_step o.lockHeld o.status queue
          registry o.state? configured o.net jitterMs =
          ⟨if o.lockHeld then WorkerAction.skippedLocked
            else WorkerAction.skippedNotFree, queue, registry⟩ := by
        rcases ho with hl | hs
        · simp [command_processor_worker_step, hl]
        · by_cases hl : o.lockHeld
          · simp [command_processor_worker_step, hl]
          · simp [command_processor_worker_step, hl, hs]
      obtain ⟨h1, h2, h3⟩ := ih queue registry configured jitterMs hrest
      simp only [worker_run, hstep]
      refine ⟨h1, h2, ?_⟩
      intro a ha
      simp only [List.mem_cons] at ha
      rcases ha with rfl | ha
      · by_cases hl : o.lockHeld <;> simp [hl]
      · exact h3 a ha
  · intro state? shuttle_id command params externaIID document_type priority
      maxsize registry nowMs configured net jitterMs hcmd hmax
    simp only [add_command_to_queue]
    rw [if_neg hcmd, if_neg (by simpa using by omega :
      ¬ maxsize ≤ (#[] : Array Entry).size)]
    rfl

/-- Witness for `c10_worker_dequeues_only_when_free` at concrete inputs:
a worker visiting an unlocked shuttle whose stored status is `UNKNOWN`
leaves its one-element queue untouched, and submitting `PALLET_IN` to a
shuttle stored as `UNKNOWN` returns the minted command id. -/
theorem c10_witness :
    (worker_run
      [⟨false, ShuttleOperationalStatus.UNKNOWN,
        some ⟨"shuttle_1", ShuttleOperationalStatus.UNKNOWN, none⟩,
        fun _ => NetOutcome.success⟩]
      #[(6, ⟨"shuttle_1_PALLET_IN_1000", "shuttle_1",
        ShuttleCommand.PALLET_IN, none, none, none, 1000⟩)] [] true
      (fun _ => 0)).1 =
      #[(6, ⟨"shuttle_1_PALLET_IN_1000", "shuttle_1",
        ShuttleCommand.PALLET_IN, none, none, none, 1000⟩)] ∧
    (add_command_to_queue
      (some ⟨"shuttle_1", ShuttleOperationalStatus.UNKNOWN, none⟩)
      "shuttle_1" ShuttleCommand.PALLET_IN none none none 10 #[] 1000 []
      1000 true (fun _ => NetOutcome.success) (fun _ => 0)).outcome =
      SubmitOutcome.commandId "shuttle_1_PALLET_IN_1000" := by
  constructor
  · exact (c10_worker_dequeues_only_when_free.1
      [⟨false, ShuttleOperationalStatus.UNKNOWN,
        some ⟨"shuttle_1", ShuttleOperationalStatus.UNKNOWN, none⟩,
        fun _ => NetOutcome.success⟩]
      #[(6, ⟨"shuttle_1_PALLET_IN_1000", "shuttle_1",
        ShuttleCommand.PALLET_IN, none, none, none, 1000⟩)] [] true
      (fun _ => 0)
      (by
        intro o ho
        rcases List.mem_singleton.mp ho with rfl
        exact Or.inr (by decide))).1
  · exact c10_worker_dequeues_only_when_free.2
      (some ⟨"shuttle_1", ShuttleOperationalStatus.UNKNOWN, none⟩)
      "shuttle_1" ShuttleCommand.PALLET_IN none none none 10 1000 [] 1000
      true (fun _ => NetOutcome.success) (fun _ => 0) (by decide)
      (by omega)
